import Mathlib

/-!
Shallow embedding of the SMS dispatch engine (operators.py, sender.py,
config.py): carrier registry and failover selection, MD5 request signing,
message templating, one delivery attempt with its persisted side effects,
and the queue-processing loops.  Stateful collaborators (the persistence
layer, the HTTP transport, the wall clock and the per-carrier rate-limiter
map) are modelled as explicit inputs and outputs:

- the transport call outcome is an input (`TransportOutcome`);
- the wall-clock timestamp used for signing is an input string;
- the mutable module-level `rate_limiters` dict is threaded through as an
  association list;
- calls to `db.actualizar_intento` and `requests.post` are recorded as
  output lists (`dbWrites`, `postReqs`), in program order.
-/

/-! ## Python string primitives (`in`, `replace`, `startswith`) on `List Char` -/

/-- Cadena `pre` is a prefix of `s` (used to model Python substring scanning). -/
def esPrefijo : List Char → List Char → Bool
  | [], _ => true
  | _ :: _, [] => false
  | a :: as, b :: bs => a == b && esPrefijo as bs

/-- Python `pat in s` on character lists: some suffix of `s` starts with `pat`. -/
def containsSub : List Char → List Char → Bool
  | [], pat => pat.isEmpty
  | s@(_ :: rest), pat => esPrefijo pat s || containsSub rest pat

/-- Python `s.replace(pat, rep)` (all non-overlapping occurrences, left to
right, scanning resumes after the inserted replacement).  Fuelled by the
length of `s`; every call site in the source uses a pattern of length >= 2
(a brace-wrapped column name or the literal link placeholder), so the fuel
is never exhausted early. -/
def replaceAux : Nat → List Char → List Char → List Char → List Char
  | 0, s, _, _ => s
  | fuel + 1, s, pat, rep =>
    match s with
    | [] => []
    | c :: rest =>
      if esPrefijo pat (c :: rest) then rep ++ replaceAux fuel ((c :: rest).drop pat.length) pat rep
      else c :: replaceAux fuel rest pat rep

/-- Python `s.replace(pat, rep)` on strings. -/
def pyReplace (s pat rep : String) : String :=
  ⟨replaceAux s.data.length s.data pat.data rep.data⟩

/-- Python `pat in s` on strings. -/
def pyContiene (s pat : String) : Bool := containsSub s.data pat.data

/-- Python `s.startswith(pre)` on strings. -/
def pyComienzaCon (s pre : String) : Bool := esPrefijo pre.data s.data

/-! ## MD5 (the digest `hashlib.md5(...).hexdigest()` computes)

Pure executable MD5 over `Nat` with explicit reduction modulo 2^32. -/

/-- Modulus of 32-bit machine arithmetic. -/
def M32 : Nat := 4294967296

/-- UTF-8 encoding of one character, as `str.encode()` produces. -/
def utf8Bytes (c : Char) : List Nat :=
  let n := c.toNat
  if n < 0x80 then [n]
  else if n < 0x800 then [0xC0 + n / 0x40, 0x80 + n % 0x40]
  else if n < 0x10000 then
    [0xE0 + n / 0x1000, 0x80 + (n / 0x40) % 0x40, 0x80 + n % 0x40]
  else
    [0xF0 + n / 0x40000, 0x80 + (n / 0x1000) % 0x40, 0x80 + (n / 0x40) % 0x40, 0x80 + n % 0x40]

/-- UTF-8 byte sequence of a string. -/
def strBytes (s : String) : List Nat := s.data.flatMap utf8Bytes

/-- The 64 MD5 round constants (integer parts of abs(sin(i+1)) * 2^32). -/
def md5K : List Nat :=
  [0xd76aa478, 0xe8c7b756, 0x242070db, 0xc1bdceee,
   0xf57c0faf, 0x4787c62a, 0xa8304613, 0xfd469501,
   0x698098d8, 0x8b44f7af, 0xffff5bb1, 0x895cd7be,
   0x6b901122, 0xfd987193, 0xa679438e, 0x49b40821,
   0xf61e2562, 0xc040b340, 0x265e5a51, 0xe9b6c7aa,
   0xd62f105d, 0x02441453, 0xd8a1e681, 0xe7d3fbc8,
   0x21e1cde6, 0xc33707d6, 0xf4d50d87, 0x455a14ed,
   0xa9e3e905, 0xfcefa3f8, 0x676f02d9, 0x8d2a4c8a,
   0xfffa3942, 0x8771f681, 0x6d9d6122, 0xfde5380c,
   0xa4beea44, 0x4bdecfa9, 0xf6bb4b60, 0xbebfbc70,
   0x289b7ec6, 0xeaa127fa, 0xd4ef3085, 0x04881d05,
   0xd9d4d039, 0xe6db99e5, 0x1fa27cf8, 0xc4ac5665,
   0xf4292244, 0x432aff97, 0xab9423a7, 0xfc93a039,
   0x655b59c3, 0x8f0ccc92, 0xffeff47d, 0x85845dd1,
   0x6fa87e4f, 0xfe2ce6e0, 0xa3014314, 0x4e0811a1,
   0xf7537e82, 0xbd3af235, 0x2ad7d2bb, 0xeb86d391]

/-- The 64 MD5 per-round left-rotation amounts. -/
def md5S : List Nat :=
  [7, 12, 17, 22, 7, 12, 17, 22, 7, 12, 17, 22, 7, 12, 17, 22,
   5, 9, 14, 20, 5, 9, 14, 20, 5, 9, 14, 20, 5, 9, 14, 20,
   4, 11, 16, 23, 4, 11, 16, 23, 4, 11, 16, 23, 4, 11, 16, 23,
   6, 10, 15, 21, 6, 10, 15, 21, 6, 10, 15, 21, 6, 10, 15, 21]

/-- 32-bit left rotation (input assumed < 2^32). -/
def rotl32 (x s : Nat) : Nat := ((x <<< s) % M32) ||| (x >>> (32 - s))

/-- MD5 padding: append 0x80, zero-fill to 56 mod 64, append the 64-bit
little-endian bit length. -/
def md5Pad (msg : List Nat) : List Nat :=
  let bitLen := (msg.length * 8) % (2 ^ 64)
  let padLen := (55 + 64 - msg.length % 64) % 64 + 1
  msg ++ (0x80 :: List.replicate (padLen - 1) 0) ++
    (List.range 8).map (fun i => (bitLen >>> (8 * i)) % 256)

/-- Little-endian 32-bit word `j` of a byte list. -/
def leWord (bytes : List Nat) (j : Nat) : Nat :=
  bytes.getD (4 * j) 0 + (bytes.getD (4 * j + 1) 0) * 256 +
  (bytes.getD (4 * j + 2) 0) * 65536 + (bytes.getD (4 * j + 3) 0) * 16777216

/-- One of the 64 MD5 rounds on state (a, b, c, d) for chunk `m`. -/
def md5Step (m : List Nat) (st : Nat × Nat × Nat × Nat) (i : Nat) : Nat × Nat × Nat × Nat :=
  let (a, b, c, d) := st
  let (f, g) :=
    if i < 16 then ((b &&& c) ||| ((b ^^^ (M32 - 1)) &&& d), i)
    else if i < 32 then ((d &&& b) ||| ((d ^^^ (M32 - 1)) &&& c), (5 * i + 1) % 16)
    else if i < 48 then (b ^^^ c ^^^ d, (3 * i + 5) % 16)
    else (c ^^^ (b ||| (d ^^^ (M32 - 1))), (7 * i) % 16)
  let f2 := (f + a + md5K.getD i 0 + leWord m g) % M32
  let b2 := (b + rotl32 f2 (md5S.getD i 0)) % M32
  (d, b2, b, c)

/-- Process one padded 64-byte chunk. -/
def md5Chunk (st : Nat × Nat × Nat × Nat) (m : List Nat) : Nat × Nat × Nat × Nat :=
  let (a0, b0, c0, d0) := st
  let (a, b, c, d) := (List.range 64).foldl (md5Step m) (a0, b0, c0, d0)
  ((a0 + a) % M32, (b0 + b) % M32, (c0 + c) % M32, (d0 + d) % M32)

/-- Split into 64-byte chunks (fuelled structural recursion). -/
def chunks64Aux : Nat → List Nat → List (List Nat)
  | 0, _ => []
  | _, [] => []
  | fuel + 1, l => l.take 64 :: chunks64Aux fuel (l.drop 64)

/-- Split a padded byte list into its 64-byte chunks. -/
def chunks64 (l : List Nat) : List (List Nat) := chunks64Aux l.length l

/-- The four 32-bit MD5 state words of the digest of a string. -/
def md5Words (s : String) : Nat × Nat × Nat × Nat :=
  let padded := md5Pad (strBytes s)
  (chunks64 padded).foldl md5Chunk (0x67452301, 0xefcdab89, 0x98badcfe, 0x10325476)

/-- The sixteen lowercase hexadecimal digit characters. -/
def hexChars : List Char := String.data ("0123456789abcdef")

/-- Little-endian byte decomposition of a 32-bit word. -/
def wordLEBytes (w : Nat) : List Nat :=
  [w % 256, (w / 256) % 256, (w / 65536) % 256, (w / 16777216) % 256]

/-- Two lowercase hex digits of one byte. -/
def byteHex (b : Nat) : List Char :=
  [hexChars.getD (b / 16 % 16) '0', hexChars.getD (b % 16) '0']

/-- `hashlib.md5(s.encode()).hexdigest()`: lowercase hexadecimal MD5 digest. -/
def md5Hex (s : String) : String :=
  let (a, b, c, d) := md5Words s
  ⟨(wordLEBytes a ++ wordLEBytes b ++ wordLEBytes c ++ wordLEBytes d).flatMap byteHex⟩

/-! ## operators.py: `OperadorConfig` and `OperadorRouter` -/

/-- Configuración de un operador de SMS (operators.py, `OperadorConfig`).
The Python field `contraseña` is spelt `contrasena` here. -/
structure OperadorConfig where
  operador : String
  url_api : String
  cuenta : String
  contrasena : String
  sender_id : String
  prioridad : Nat
  max_por_minuto : Nat
  max_reintentos : Nat
  timeout_segundos : Nat
  habilitado : Bool
deriving Repr, DecidableEq

/-- `OperadorConfig.generar_sign` (operators.py lines 33-41) with the
timestamp supplied explicitly; the Python default (current Asia/Shanghai
wall-clock time formatted `YYYYMMDDHHMMSS`) is a clock read modelled as this
input.  It concatenates account, secret and timestamp, hashes with MD5 and
returns the hex digest together with the timestamp. -/
def OperadorConfig.generar_sign (op : OperadorConfig) (timestamp : String) : String × String :=
  (md5Hex (op.cuenta ++ op.contrasena ++ timestamp), timestamp)

/-- The `self.operadores` dict of `OperadorRouter`: an insertion-ordered
association list with unique keys, as a Python dict. -/
abbrev Registry := List (String × OperadorConfig)

/-- Dict lookup by key, as `self.operadores.get(...)` and indexing do. -/
def dictGet (reg : Registry) (nombre : String) : Option OperadorConfig :=
  (reg.find? (fun p => p.1 == nombre)).map (·.2)

/-- `OperadorRouter.obtener_operador` (operators.py lines 139-141). -/
def obtener_operador (reg : Registry) (nombre : String) : Option OperadorConfig :=
  dictGet reg nombre

/-- The predefined `principal` carrier (operators.py lines 67-75). -/
def principalConfig : OperadorConfig :=
  { operador := "principal"
    url_api := "http://sms.yx19999.com:20003/sendsmsV2"
    cuenta := "cs_p8bh8b"
    contrasena := "iGcMIQxT"
    sender_id := "teddy"
    prioridad := 1
    max_por_minuto := 100
    max_reintentos := 5
    timeout_segundos := 10
    habilitado := true }

/-- The predefined `backup1` carrier (operators.py lines 76-84), disabled. -/
def backup1Config : OperadorConfig :=
  { operador := "backup1"
    url_api := "http://api-backup1.sms.com/send"
    cuenta := "account_backup1"
    contrasena := "password_backup1"
    sender_id := "sender_backup1"
    prioridad := 2
    max_por_minuto := 100
    max_reintentos := 5
    timeout_segundos := 10
    habilitado := false }

/-- The predefined `backup2` carrier (operators.py lines 85-93), disabled. -/
def backup2Config : OperadorConfig :=
  { operador := "backup2"
    url_api := "http://api-backup2.sms.com/send"
    cuenta := "account_backup2"
    contrasena := "password_backup2"
    sender_id := "sender_backup2"
    prioridad := 3
    max_por_minuto := 100
    max_reintentos := 5
    timeout_segundos := 10
    habilitado := false }

/-- `OPERADORES_PREDEFINIDOS`, the registry a fresh `OperadorRouter` holds. -/
def OPERADORES_PREDEFINIDOS : Registry :=
  [("principal", principalConfig), ("backup1", backup1Config), ("backup2", backup2Config)]

/-- `OperadorRouter.habilitar_operador` (operators.py lines 147-153). -/
def habilitar_operador (reg : Registry) (nombre : String) (habilitado : Bool) : Registry × Bool :=
  if (dictGet reg nombre).isSome then
    (reg.map (fun p => if p.1 == nombre then (p.1, { p.2 with habilitado := habilitado }) else p),
     true)
  else (reg, false)

/-- The enabled-carrier sublist (operators.py lines 123-126), in dict
insertion order. -/
def operadoresHabilitados (reg : Registry) : List OperadorConfig :=
  (reg.map (·.2)).filter (·.habilitado)

/-- Ascending priority, the key order of `sort(key=lambda x: x.prioridad)`. -/
def prioLe (a b : OperadorConfig) : Prop := a.prioridad ≤ b.prioridad

instance : DecidableRel prioLe := fun a b => Nat.decLe a.prioridad b.prioridad

instance : IsTotal OperadorConfig prioLe := ⟨fun a b => Nat.le_total a.prioridad b.prioridad⟩

instance : IsTrans OperadorConfig prioLe := ⟨fun _ _ _ => Nat.le_trans⟩

/-- Python's stable `list.sort(key=lambda x: x.prioridad)` (operators.py
line 133): insertion sort with `orderedInsert` places an element before the
first existing element of greater-or-equal key, so equal-priority carriers
keep their insertion order exactly as CPython's stable sort does. -/
def sortByPrio (l : List OperadorConfig) : List OperadorConfig :=
  List.insertionSort prioLe l

/-- `OperadorRouter.obtener_operador_siguiente` (operators.py lines 115-137).
When no carrier is enabled the Python code logs an error and returns
the `principal` registry entry; the `Option` result models the `KeyError`
that lookup would raise if the key were absent.  In the non-empty branch the
index `intento % count` is always in range, so the result is always `some`. -/
def obtener_operador_siguiente (reg : Registry) (intento : Nat) (operador_fallido : Option String) :
    Option OperadorConfig :=
  if (operadoresHabilitados reg).isEmpty then
    obtener_operador reg ("principal")
  else
    (sortByPrio (operadoresHabilitados reg)).get?
      (intento % (sortByPrio (operadoresHabilitados reg)).length)

/-! ## sender.py: `SMSSender` -/

/-- `SMSSender.BACKOFF_DELAYS` (sender.py line 25): the escalating retry
delays in seconds.  Defined by the source but, notably, never consulted by
`reintentar_fallidos`. -/
def BACKOFF_DELAYS : List Nat := [1, 5, 30, 300, 1800]

/-- One iteration of the row-data loop of `preparar_mensaje` (sender.py
lines 34-37): replace every occurrence of the brace-wrapped column name by
the stringified value, if it occurs at all. -/
def aplicarColumna (acc : String) (kv : String × String) : String :=
  if pyContiene acc ("\x7b" ++ kv.1 ++ "\x7d") then
    pyReplace acc ("\x7b" ++ kv.1 ++ "\x7d") kv.2
  else acc

/-- The link-replacement step of `preparar_mensaje` (sender.py lines 40-41):
a missing or empty link is falsy, and the placeholder must still occur. -/
def aplicarLink (mensaje_final : String) (link_dinamico : Option String) : String :=
  match link_dinamico with
  | none => mensaje_final
  | some l =>
    if (l.length != 0) && pyContiene mensaje_final ("{link}") then
      pyReplace mensaje_final ("{link}") l
    else mensaje_final

/-- `SMSSender.preparar_mensaje` (sender.py lines 27-43).  `row_data` is the
optional dict of already-stringified column values (a Python dict iterates
in insertion order, modelled as an association list); `none` and `some []`
are both falsy for the `if row_data:` guard, so both skip the loop. -/
def preparar_mensaje (mensaje numero : String) (row_data : Option (List (String × String)))
    (link_dinamico : Option String) : String :=
  let mensaje_final :=
    match row_data with
    | none => mensaje
    | some rd => rd.foldl aplicarColumna mensaje
  aplicarLink mensaje_final link_dinamico

/-- One `RateLimiter(max_por_minuto)` instance (rate_limiter.py is outside
the core; only its constructor argument matters to the claims here). -/
structure RateLimiter where
  max_por_minuto : Nat
deriving Repr, DecidableEq

/-- The module-level `rate_limiters` dict of sender.py line 18, threaded
explicitly: an insertion-ordered association list keyed by carrier name. -/
abbrev LimiterMap := List (String × RateLimiter)

/-- Dict lookup in the `rate_limiters` map. -/
def buscarLimiter (ls : LimiterMap) (nombre : String) : Option RateLimiter :=
  (ls.find? (fun p => p.1 == nombre)).map (·.2)

/-- Outcome of the `requests.post` transport call: success with the final
response string (already stringified as `str(respuesta)`) and measured
latency, `requests.Timeout`, another `requests.RequestException`, or any
other exception. -/
inductive TransportOutcome where
  | ok (respuesta : String) (tiempo_ms : Nat)
  | timeout
  | reqError (e : String)
  | unexpected (e : String)
deriving Repr, DecidableEq

/-- One recorded call to `db.actualizar_intento`. -/
structure DbWrite where
  queue_id : Nat
  operador : String
  estado : String
  error : Option String
  respuesta_api : Option String
  tiempo_ms : Option Nat
deriving Repr, DecidableEq

/-- One recorded call to `requests.post`: the carrier endpoint, the query
parameters and the JSON body fields. -/
structure PostRequest where
  url : String
  account : String
  sign : String
  datetime : String
  senderid : String
  numbers : String
  content : String
deriving Repr, DecidableEq

/-- The dict `enviar_sms_ahora` returns. -/
structure SendResult where
  success : Bool
  numero : String
  operador : String
  error : Option String
  respuesta : Option String
  tiempo_ms : Option Nat
deriving Repr, DecidableEq

/-- Everything one `enviar_sms_ahora` call produces: its return value, the
persisted attempt records, the transport calls issued, and the updated
`rate_limiters` map. -/
structure EnvioEfectos where
  resultado : SendResult
  dbWrites : List DbWrite
  postReqs : List PostRequest
  limiters : LimiterMap
deriving Repr, DecidableEq

/-- `SMSSender.enviar_sms_ahora` (sender.py lines 45-192).  The registry,
the `rate_limiters` map, the transport outcome and the signing timestamp
are explicit inputs; `limiter.esperar()` only delays and is not otherwise
observable, so it leaves no trace beyond the lazily created map entry. -/
def enviar_sms_ahora (reg : Registry) (ls : LimiterMap) (outcome : TransportOutcome)
    (ts : String) (queue_id : Nat) (numero mensaje operador_nombre : String)
    (row_data : Option (List (String × String))) (link_dinamico : Option String) :
    EnvioEfectos :=
  match obtener_operador reg operador_nombre with
  | none =>
    { resultado :=
        { success := false, numero := numero, operador := operador_nombre
          error := some ("Operador no existe"), respuesta := none, tiempo_ms := none }
      dbWrites := [], postReqs := [], limiters := ls }
  | some operador =>
    let mensaje_procesado := preparar_mensaje mensaje numero row_data link_dinamico
    if mensaje_procesado.length == 0 then
      { resultado :=
          { success := false, numero := numero, operador := operador_nombre
            error := some ("Mensaje vacío"), respuesta := none, tiempo_ms := none }
        dbWrites :=
          [{ queue_id := queue_id, operador := operador_nombre, estado := "error"
             error := some ("Mensaje vacío después de procesar variables")
             respuesta_api := none, tiempo_ms := none }]
        postReqs := [], limiters := ls }
    else
      let ls2 :=
        if (buscarLimiter ls operador_nombre).isNone then
          ls ++ [(operador_nombre, { max_por_minuto := operador.max_por_minuto })]
        else ls
      let signPair := operador.generar_sign ts
      let numero_formateado :=
        if pyComienzaCon numero ("57") then numero else "57" ++ numero
      let req : PostRequest :=
        { url := operador.url_api, account := operador.cuenta, sign := signPair.1
          datetime := signPair.2, senderid := operador.sender_id
          numbers := numero_formateado, content := mensaje_procesado }
      match outcome with
      | .ok respuesta tiempo_ms =>
        { resultado :=
            { success := true, numero := numero, operador := operador_nombre
              error := none, respuesta := some respuesta, tiempo_ms := some tiempo_ms }
          dbWrites :=
            [{ queue_id := queue_id, operador := operador_nombre, estado := "enviado"
               error := none, respuesta_api := some respuesta, tiempo_ms := some tiempo_ms }]
          postReqs := [req], limiters := ls2 }
      | .timeout =>
        { resultado :=
            { success := false, numero := numero, operador := operador_nombre
              error := some ("Timeout"), respuesta := none, tiempo_ms := none }
          dbWrites :=
            [{ queue_id := queue_id, operador := operador_nombre, estado := "error"
               error := some ("Timeout de conexión"), respuesta_api := none, tiempo_ms := none }]
          postReqs := [req], limiters := ls2 }
      | .reqError e =>
        { resultado :=
            { success := false, numero := numero, operador := operador_nombre
              error := some e, respuesta := none, tiempo_ms := none }
          dbWrites :=
            [{ queue_id := queue_id, operador := operador_nombre, estado := "error"
               error := some e, respuesta_api := none, tiempo_ms := none }]
          postReqs := [req], limiters := ls2 }
      | .unexpected e =>
        { resultado :=
            { success := false, numero := numero, operador := operador_nombre
              error := some e, respuesta := none, tiempo_ms := none }
          dbWrites :=
            [{ queue_id := queue_id, operador := operador_nombre, estado := "error"
               error := some e, respuesta_api := none, tiempo_ms := none }]
          postReqs := [req], limiters := ls2 }

/-- One queue row as `db.obtener_pendientes` returns it.  The fields the
loops read are `id`, `numero`, `mensaje`, `intentos`, `estado` and
`operador`; `segundos_desde_ultimo_intento` is the row's elapsed time since
its last attempt.  Modelled from the spec: the persistence layer (module
`database`) is not under src/, and the spec's QueueItem carries "timestamps
of last attempt and next eligible retry"; the loops in src/sender.py never
read this field. -/
structure QueueItem where
  id : Nat
  numero : String
  mensaje : String
  intentos : Nat
  estado : String
  operador : Option String
  segundos_desde_ultimo_intento : Nat
deriving Repr, DecidableEq

/-- The body of the `procesar_cola` loop for one pending item (sender.py
lines 207-224): select the next carrier from the item's attempt count and
its current carrier, then send with **no** row data and **no** dynamic
link (the call passes only four arguments).  `none` models the `KeyError`
crash were the selector's `principal` fallback to miss. -/
def procesarItem (reg : Registry) (ls : LimiterMap) (outcome : TransportOutcome)
    (ts : String) (item : QueueItem) : Option EnvioEfectos :=
  match obtener_operador_siguiente reg item.intentos item.operador with
  | none => none
  | some operador =>
    some (enviar_sms_ahora reg ls outcome ts item.id item.numero item.mensaje
      operador.operador none none)

/-- `SMSSender.procesar_cola` (sender.py lines 194-230), with the pending
batch, the per-item transport outcomes (indexed by queue id) and the
signing timestamp as inputs; accumulates all persisted records and
transport calls in program order and threads the `rate_limiters` map. -/
def procesar_cola (reg : Registry) (ls : LimiterMap) (oc : Nat → TransportOutcome)
    (ts : String) (pendientes : List QueueItem) :
    List DbWrite × List PostRequest × LimiterMap :=
  pendientes.foldl
    (fun acc item =>
      match procesarItem reg acc.2.2 (oc item.id) ts item with
      | none => acc
      | some e => (acc.1 ++ e.dbWrites, acc.2.1 ++ e.postReqs, e.limiters))
    ([], [], ls)

/-- The body of the `reintentar_fallidos` loop for one item already known
to be in state `reintentando` (sender.py lines 242-257): reselect a carrier
from the attempt count alone and send with no row data and no dynamic link. -/
def reintentarItem (reg : Registry) (ls : LimiterMap) (outcome : TransportOutcome)
    (ts : String) (item : QueueItem) : Option EnvioEfectos :=
  match obtener_operador_siguiente reg item.intentos none with
  | none => none
  | some operador =>
    some (enviar_sms_ahora reg ls outcome ts item.id item.numero item.mensaje
      operador.operador none none)

/-- `SMSSender.reintentar_fallidos` (sender.py lines 232-260): for every
pending item whose state is `reintentando`, reselect a carrier and send.
No field of the item other than `estado`, `id`, `numero`, `mensaje` and
`intentos` is consulted — in particular no elapsed-time or backoff check
occurs. -/
def reintentar_fallidos (reg : Registry) (ls : LimiterMap) (oc : Nat → TransportOutcome)
    (ts : String) (pendientes : List QueueItem) :
    List DbWrite × List PostRequest × LimiterMap :=
  pendientes.foldl
    (fun acc item =>
      if item.estado == "reintentando" then
        match reintentarItem reg acc.2.2 (oc item.id) ts item with
        | none => acc
        | some e => (acc.1 ++ e.dbWrites, acc.2.1 ++ e.postReqs, e.limiters)
      else acc)
    ([], [], ls)

/-! ## Call sequences (for the lazily created rate-limiter map) -/

/-- The arguments of one `enviar_sms_ahora` invocation, with its transport
outcome and signing timestamp. -/
structure Llamada where
  outcome : TransportOutcome
  ts : String
  queue_id : Nat
  numero : String
  mensaje : String
  operador_nombre : String
  row_data : Option (List (String × String))
  link_dinamico : Option String
deriving Repr, DecidableEq

/-- Run one bundled invocation of `enviar_sms_ahora`. -/
def enviarLlamada (reg : Registry) (ls : LimiterMap) (c : Llamada) : EnvioEfectos :=
  enviar_sms_ahora reg ls c.outcome c.ts c.queue_id c.numero c.mensaje c.operador_nombre
    c.row_data c.link_dinamico

/-- Run a sequence of `enviar_sms_ahora` invocations, threading the
module-level `rate_limiters` map through them. -/
def enviarSecuencia (reg : Registry) : List Llamada → LimiterMap → LimiterMap
  | [], ls => ls
  | c :: cs, ls => enviarSecuencia reg cs (enviarLlamada reg ls c).limiters

/-! ## Concrete instances used by counterexamples and witnesses -/

/-- The fresh registry after `habilitar_operador('principal', False)`:
every carrier disabled. -/
def registroDeshabilitado : Registry :=
  (habilitar_operador OPERADORES_PREDEFINIDOS ("principal") false).1

/-- A queue row in state `reintentando` whose last attempt happened 0
seconds ago, i.e. well inside the 5-second backoff delay scheduled for
attempt count 1. -/
def itemReintento : QueueItem :=
  { id := 7, numero := "3001234567", mensaje := "hola", intentos := 1
    estado := "reintentando", operador := none, segundos_desde_ultimo_intento := 0 }

/-- A freshly enqueued pending queue row. -/
def itemPendiente : QueueItem :=
  { id := 1, numero := "3001234567", mensaje := "hola", intentos := 0
    estado := "pendiente", operador := none, segundos_desde_ultimo_intento := 120 }

/-- One successful invocation against the `principal` carrier. -/
def llamada0 : Llamada :=
  { outcome := .ok ("ok") 5, ts := "20240101000000", queue_id := 1
    numero := "3001234567", mensaje := "hola", operador_nombre := "principal"
    row_data := none, link_dinamico := none }

/-- The transport request `procesar_cola` issues for `itemPendiente` on the
fresh registry with signing timestamp 20240101000000 (the `sign` value is
the MD5 digest of `cs_p8bh8biGcMIQxT20240101000000`). -/
def reqEjemplo : PostRequest :=
  { url := "http://sms.yx19999.com:20003/sendsmsV2", account := "cs_p8bh8b"
    sign := "03b0abe3ff6631b6708c88f24bef0ccb", datetime := "20240101000000"
    senderid := "teddy", numbers := "573001234567", content := "hola" }

/-- The full effects of that invocation. -/
def efectosEjemplo : EnvioEfectos :=
  { resultado :=
      { success := true, numero := "3001234567", operador := "principal"
        error := none, respuesta := some ("ok"), tiempo_ms := some 5 }
    dbWrites :=
      [{ queue_id := 1, operador := "principal", estado := "enviado"
         error := none, respuesta_api := some ("ok"), tiempo_ms := some 5 }]
    postReqs := [reqEjemplo]
    limiters := [("principal", { max_por_minuto := 100 })] }

/-! ## Supporting lemmas -/

/-- Index map over the full range of positions of a list yields the list. -/
theorem range_map_get (α : Type) (xs : List α) :
    (List.range xs.length).map (fun i => xs.get? i) = xs.map some := by
  induction xs with
  | nil => rfl
  | cons a t ih =>
    rw [List.length_cons, List.range_succ_eq_map, List.map_cons, List.map_map, List.map_cons]
    refine congrArg (some a :: ·) ?_
    calc (List.range t.length).map ((fun i => (a :: t).get? i) ∘ Nat.succ)
        = (List.range t.length).map (fun i => t.get? i) :=
          List.map_congr_left (fun i _ => by simp [Function.comp])
      _ = t.map some := ih

/-- Rendering with no row data and no dynamic link is the identity. -/
theorem preparar_mensaje_none_none (m n : String) : preparar_mensaje m n none none = m := rfl

/-! ## Claim theorems -/

/-- Claim C1 (counterexample): in the registry state where every carrier has
been disabled, `obtener_operador_siguiente` does not fail with a "no enabled
carriers" error — it returns the (disabled) `principal` carrier
configuration. -/
theorem claim_C1_counterexample :
    operadoresHabilitados registroDeshabilitado = []
    ∧ obtener_operador_siguiente registroDeshabilitado 0 none
        = some { principalConfig with habilitado := false } := by
  constructor
  · decide
  · decide

/-- Claim C1 (amended): for every registry state in which no carrier is
enabled, `obtener_operador_siguiente` with any attempt number does not fail:
it returns the registry entry stored under the key `principal` as the
fallback (failure — the `KeyError` modelled by `none` — would occur only if
that key were absent). -/
theorem claim_C1 (reg : Registry) (intento : Nat) (f : Option String)
    (h : ∀ p ∈ reg, p.2.habilitado = false) :
    obtener_operador_siguiente reg intento f = obtener_operador reg ("principal") := by
  have hfil : operadoresHabilitados reg = [] := by
    refine List.filter_eq_nil_iff.mpr ?_
    intro op hop
    rcases List.mem_map.mp hop with ⟨p, hp, rfl⟩
    simp [h p hp]
  unfold obtener_operador_siguiente
  rw [hfil]
  rfl

/-- Claim C1 (witness): instantiating the amended claim on the all-disabled
registry at attempt number 2 still yields the disabled `principal` entry. -/
theorem claim_C1_witness :
    obtener_operador_siguiente registroDeshabilitado 2 none
      = some { principalConfig with habilitado := false } :=
  (claim_C1 registroDeshabilitado 2 none (by decide)).trans (by decide)

/-- Claim C2 (counterexample): invoking `enviar_sms_ahora` with a carrier
name absent from the registry persists no attempt record at all —
`db.actualizar_intento` is never called on that branch. -/
theorem claim_C2_counterexample :
    (enviar_sms_ahora OPERADORES_PREDEFINIDOS [] .timeout ("20240101000000") 1
        ("3001234567") ("hola") ("desconocido") none none).dbWrites = [] := by
  decide

/-- Claim C2 (amended): every invocation of `enviar_sms_ahora` whose carrier
name resolves in the registry persists exactly one attempt record via
`db.actualizar_intento`, in every outcome branch (delivered, timeout,
transport error, unexpected error, empty-message validation error); the
carrier-not-found branch alone persists none. -/
theorem claim_C2 (reg : Registry) (ls : LimiterMap) (oc : TransportOutcome) (ts : String)
    (qid : Nat) (numero mensaje nombre : String) (rd : Option (List (String × String)))
    (link : Option String) :
    (enviar_sms_ahora reg ls oc ts qid numero mensaje nombre rd link).dbWrites.length
      = if (obtener_operador reg nombre).isSome then 1 else 0 := by
  unfold enviar_sms_ahora
  cases obtener_operador reg nombre with
  | none => rfl
  | some op =>
    cases oc <;> simp only [Option.isSome_some, if_true] <;> split <;> rfl

/-- Claim C2 (witness): on the fresh registry and the known carrier
`principal`, a timed-out attempt persists exactly one record. -/
theorem claim_C2_witness :
    (enviar_sms_ahora OPERADORES_PREDEFINIDOS [] .timeout ("20240101000000") 1
        ("3001234567") ("hola") ("principal") none none).dbWrites.length = 1 :=
  (claim_C2 OPERADORES_PREDEFINIDOS [] .timeout ("20240101000000") 1
      ("3001234567") ("hola") ("principal") none none).trans (by decide)

/-- Claim C3 (code evaluated at the failing input): `BACKOFF_DELAYS` does
schedule a 5-second minimum wait for attempt count 1, yet `reintentar_fallidos`
executes a delivery attempt — one transport call and one persisted record —
for an item in state `reintentando` whose last attempt was 0 seconds ago.
The backoff schedule the source defines is never consulted, so the item is
not skipped. -/
theorem claim_C3_backoff_ignored :
    BACKOFF_DELAYS = [1, 5, 30, 300, 1800]
    ∧ itemReintento.estado = "reintentando"
    ∧ itemReintento.intentos = 1
    ∧ itemReintento.segundos_desde_ultimo_intento = 0
    ∧ itemReintento.segundos_desde_ultimo_intento < BACKOFF_DELAYS.getD itemReintento.intentos 1800
    ∧ (reintentar_fallidos OPERADORES_PREDEFINIDOS [] (fun _ => .ok ("ok") 9)
        ("20240101000000") [itemReintento]).2.1.length = 1
    ∧ (reintentar_fallidos OPERADORES_PREDEFINIDOS [] (fun _ => .ok ("ok") 9)
        ("20240101000000") [itemReintento]).1.length = 1 := by
  refine ⟨rfl, rfl, rfl, rfl, by decide, by decide, by decide⟩

/-- Claim C5: the `previously_failed_carrier` hint passed to
`obtener_operador_siguiente` has no influence whatsoever on the selected
carrier — the function never reads it. -/
theorem claim_C5 (reg : Registry) (intento : Nat) (f₁ f₂ : Option String) :
    obtener_operador_siguiente reg intento f₁ = obtener_operador_siguiente reg intento f₂ := rfl

/-- Claim C4: for every registry with at least one enabled carrier, calling
`obtener_operador_siguiente` with attempt numbers 0 through N-1 yields
exactly the priority-sorted list of the enabled carriers: every enabled
carrier exactly once, in ascending `prioridad`, attempt 0 giving the
lowest priority value. -/
theorem claim_C4 (reg : Registry) (f : Option String)
    (h : 0 < (operadoresHabilitados reg).length) :
    ((List.range (operadoresHabilitados reg).length).map
        (fun i => obtener_operador_siguiente reg i f))
      = (sortByPrio (operadoresHabilitados reg)).map some
    ∧ (sortByPrio (operadoresHabilitados reg)).Perm (operadoresHabilitados reg)
    ∧ (sortByPrio (operadoresHabilitados reg)).Pairwise prioLe := by
  have hlen : (sortByPrio (operadoresHabilitados reg)).length
      = (operadoresHabilitados reg).length :=
    List.length_insertionSort prioLe (operadoresHabilitados reg)
  refine ⟨?_, List.perm_insertionSort prioLe (operadoresHabilitados reg),
    List.sorted_insertionSort prioLe (operadoresHabilitados reg)⟩
  have hne : (operadoresHabilitados reg).isEmpty = false := by
    cases hl : operadoresHabilitados reg with
    | nil => rw [hl] at h; exact absurd h (by decide)
    | cons a l => rfl
  have hstep : ∀ i ∈ List.range (operadoresHabilitados reg).length,
      obtener_operador_siguiente reg i f = (sortByPrio (operadoresHabilitados reg)).get? i := by
    intro i hi
    have hi2 : i < (sortByPrio (operadoresHabilitados reg)).length := by
      rw [hlen]; exact List.mem_range.mp hi
    unfold obtener_operador_siguiente
    rw [hne, if_neg (show ¬(false = true) by decide), Nat.mod_eq_of_lt hi2]
  calc (List.range (operadoresHabilitados reg).length).map
          (fun i => obtener_operador_siguiente reg i f)
      = (List.range (operadoresHabilitados reg).length).map
          (fun i => (sortByPrio (operadoresHabilitados reg)).get? i) :=
        List.map_congr_left hstep
    _ = (List.range (sortByPrio (operadoresHabilitados reg)).length).map
          (fun i => (sortByPrio (operadoresHabilitados reg)).get? i) := by rw [hlen]
    _ = (sortByPrio (operadoresHabilitados reg)).map some :=
        range_map_get OperadorConfig (sortByPrio (operadoresHabilitados reg))

/-- Claim C4 (witness): on the fresh registry the single enabled carrier is
visited exactly once, at attempt 0, and it is `principal`. -/
theorem claim_C4_witness :
    ((List.range (operadoresHabilitados OPERADORES_PREDEFINIDOS).length).map
        (fun i => obtener_operador_siguiente OPERADORES_PREDEFINIDOS i none))
      = [some principalConfig] :=
  (claim_C4 OPERADORES_PREDEFINIDOS none (by decide)).1.trans (by decide)

/-- Claim C6: `preparar_mensaje` substitutes `{key}` placeholders from the
row data, then the `{link}` placeholder from the dynamic link; with no row
data and no link it is the identity, and when no placeholder of the row
data occurs and no `{link}` placeholder occurs the template is returned
verbatim; in particular the two examples of the spec hold. -/
theorem claim_C6 :
    (∀ numero, preparar_mensaje ("Hola {nombre}") numero (some [("nombre", "Ana")]) none
        = "Hola Ana")
    ∧ (∀ numero, preparar_mensaje ("Ver {link}") numero (some []) (some ("http://x/y"))
        = "Ver http://x/y")
    ∧ (∀ mensaje numero, preparar_mensaje mensaje numero none none = mensaje)
    ∧ (∀ mensaje numero rd link,
        (∀ kv ∈ rd, pyContiene mensaje ("\x7b" ++ kv.1 ++ "\x7d") = false) →
        pyContiene mensaje ("{link}") = false →
        preparar_mensaje mensaje numero (some rd) (some link) = mensaje) := by
  refine ⟨fun _ => rfl, fun _ => rfl, fun _ _ => rfl, ?_⟩
  intro mensaje numero rd link hrd hlink
  have hfold : ∀ (l : List (String × String)),
      (∀ kv ∈ l, pyContiene mensaje ("\x7b" ++ kv.1 ++ "\x7d") = false) →
      l.foldl aplicarColumna mensaje = mensaje := by
    intro l
    induction l with
    | nil => intro _; rfl
    | cons kv tl ih =>
      intro hl
      have hkv : aplicarColumna mensaje kv = mensaje := by
        unfold aplicarColumna
        rw [hl kv (List.mem_cons_self kv tl)]
        rfl
      rw [List.foldl_cons, hkv]
      exact ih (fun p hp => hl p (List.mem_cons_of_mem kv hp))
  show aplicarLink (rd.foldl aplicarColumna mensaje) (some link) = mensaje
  rw [hfold rd hrd]
  show (if ((link.length != 0) && pyContiene mensaje ("{link}")) = true then
      pyReplace mensaje ("{link}") link else mensaje) = mensaje
  rw [hlink, Bool.and_false]
  rfl

/-- Claim C6 (witness): a template containing neither the row-data
placeholder nor a link placeholder passes through unchanged. -/
theorem claim_C6_witness :
    preparar_mensaje ("Adios") ("3001234567") (some [("z", "1")]) (some ("http://l"))
      = "Adios" :=
  claim_C6.2.2.2 ("Adios") ("3001234567") [("z", "1")] ("http://l") (by decide) (by decide)

/-- Claim C7: when the carrier exists but the rendered message body is
empty, `enviar_sms_ahora` reports a validation failure, persists exactly the
one empty-message error record, and issues no transport call. -/
theorem claim_C7 (reg : Registry) (ls : LimiterMap) (oc : TransportOutcome) (ts : String)
    (qid : Nat) (numero mensaje nombre : String) (rd : Option (List (String × String)))
    (link : Option String) (op : OperadorConfig)
    (hop : obtener_operador reg nombre = some op)
    (hmsg : preparar_mensaje mensaje numero rd link = "") :
    (enviar_sms_ahora reg ls oc ts qid numero mensaje nombre rd link).resultado.success = false
    ∧ (enviar_sms_ahora reg ls oc ts qid numero mensaje nombre rd link).dbWrites
        = [{ queue_id := qid, operador := nombre, estado := "error"
             error := some ("Mensaje vacío después de procesar variables")
             respuesta_api := none, tiempo_ms := none }]
    ∧ (enviar_sms_ahora reg ls oc ts qid numero mensaje nombre rd link).postReqs = [] := by
  unfold enviar_sms_ahora
  rw [hop]
  simp only [hmsg]
  exact ⟨rfl, rfl, rfl⟩

/-- Claim C7 (witness): an empty template on the `principal` carrier yields
the validation failure, the single error record and no transport call. -/
theorem claim_C7_witness :
    (enviar_sms_ahora OPERADORES_PREDEFINIDOS [] .timeout ("20240101000000") 4
        ("3001234567") ("") ("principal") none none).resultado.success = false
    ∧ (enviar_sms_ahora OPERADORES_PREDEFINIDOS [] .timeout ("20240101000000") 4
        ("3001234567") ("") ("principal") none none).dbWrites
        = [{ queue_id := 4, operador := "principal", estado := "error"
             error := some ("Mensaje vacío después de procesar variables")
             respuesta_api := none, tiempo_ms := none }]
    ∧ (enviar_sms_ahora OPERADORES_PREDEFINIDOS [] .timeout ("20240101000000") 4
        ("3001234567") ("") ("principal") none none).postReqs = [] :=
  claim_C7 OPERADORES_PREDEFINIDOS [] .timeout ("20240101000000") 4
    ("3001234567") ("") ("principal") none none principalConfig (by decide) rfl

/-- A default-respecting property holds of any `getD` lookup. -/
theorem getD_spec (P : Char → Prop) : ∀ (l : List Char) (n : Nat) (d : Char),
    (∀ x ∈ l, P x) → P d → P (l.getD n d) := by
  intro l
  induction l with
  | nil => intro n d _ hd; cases n <;> exact hd
  | cons a t ih =>
    intro n d hl hd
    cases n with
    | zero => exact hl a (List.mem_cons_self a t)
    | succ m => exact ih m d (fun x hx => hl x (List.mem_cons_of_mem a hx)) hd

/-- Both characters `byteHex` emits are lowercase hexadecimal digits. -/
theorem mem_hexChars_byteHex (b : Nat) (c : Char) (hc : c ∈ byteHex b) : c ∈ hexChars := by
  rcases List.mem_cons.mp hc with rfl | hc2
  · exact getD_spec (· ∈ hexChars) hexChars _ '0' (fun x hx => hx) (by decide)
  rcases List.mem_cons.mp hc2 with rfl | hc3
  · exact getD_spec (· ∈ hexChars) hexChars _ '0' (fun x hx => hx) (by decide)
  · exact absurd hc3 (List.not_mem_nil c)

/-- Every character of a hex rendering of bytes is a lowercase hex digit. -/
theorem mem_hexChars_flatMap : ∀ (bs : List Nat) (c : Char),
    c ∈ bs.flatMap byteHex → c ∈ hexChars := by
  intro bs
  induction bs with
  | nil => intro c hc; exact absurd hc (List.not_mem_nil c)
  | cons b tl ih =>
    intro c hc
    rw [List.flatMap_cons] at hc
    rcases List.mem_append.mp hc with h1 | h2
    · exact mem_hexChars_byteHex b c h1
    · exact ih c h2

/-- The hex rendering of bytes has two characters per byte. -/
theorem length_flatMap_byteHex : ∀ (bs : List Nat), (bs.flatMap byteHex).length = 2 * bs.length := by
  intro bs
  induction bs with
  | nil => rfl
  | cons b tl ih =>
    rw [List.flatMap_cons, List.length_append, ih]
    have hb : (byteHex b).length = 2 := rfl
    rw [hb, List.length_cons]
    omega

/-- MD5 hex digests always have 32 characters. -/
theorem md5Hex_length (s : String) : (md5Hex s).length = 32 := by
  unfold md5Hex
  rcases md5Words s with ⟨a, b, c, d⟩
  show ((wordLEBytes a ++ wordLEBytes b ++ wordLEBytes c ++ wordLEBytes d).flatMap byteHex).length
      = 32
  rw [length_flatMap_byteHex]
  have h4 : ∀ w, (wordLEBytes w).length = 4 := fun _ => rfl
  rw [List.length_append, List.length_append, List.length_append, h4, h4, h4, h4]

/-- MD5 hex digests consist of lowercase hexadecimal digits only. -/
theorem md5Hex_chars (s : String) (c : Char) (hc : c ∈ (md5Hex s).data) : c ∈ hexChars := by
  unfold md5Hex at hc
  rcases md5Words s with ⟨a, b, c', d⟩
  exact mem_hexChars_flatMap _ c hc

/-- Claim C8: `generar_sign` returns the MD5 digest of account id, shared
secret and timestamp concatenated in that order, paired with the timestamp
used; the digest is a 32-character lowercase hexadecimal string, the result
is deterministic in its three inputs (it is a pure function of them), and on
the `principal` credentials with timestamp 20240101000000 it equals the
digest computed by a reference MD5 implementation. -/
theorem claim_C8 :
    (∀ (op : OperadorConfig) (ts : String),
        op.generar_sign ts = (md5Hex (op.cuenta ++ op.contrasena ++ ts), ts))
    ∧ (∀ (op : OperadorConfig) (ts : String), (op.generar_sign ts).1.length = 32)
    ∧ (∀ (op : OperadorConfig) (ts : String) (c : Char),
        c ∈ (op.generar_sign ts).1.data → c ∈ hexChars)
    ∧ principalConfig.generar_sign ("20240101000000")
        = ("03b0abe3ff6631b6708c88f24bef0ccb", "20240101000000") :=
  ⟨fun _ _ => rfl, fun op ts => md5Hex_length (op.cuenta ++ op.contrasena ++ ts),
   fun op ts c hc => md5Hex_chars (op.cuenta ++ op.contrasena ++ ts) c hc, by decide⟩

/-- Claim C8 (witness): the first digit of the `principal` signature for
timestamp 20240101000000 is a lowercase hexadecimal digit. -/
theorem claim_C8_witness : ('0' : Char) ∈ hexChars :=
  claim_C8.2.2.1 principalConfig ("20240101000000") '0' (by decide)

/-- Appending a new entry to the limiter map does not change an existing
binding found before it. -/
theorem buscarLimiter_append_of_some (ls : LimiterMap) (x : String × RateLimiter)
    (nombre : String) (l : RateLimiter) (h : buscarLimiter ls nombre = some l) :
    buscarLimiter (ls ++ [x]) nombre = some l := by
  unfold buscarLimiter at h ⊢
  rcases Option.map_eq_some'.mp h with ⟨p, hp, hp2⟩
  rw [List.find?_append, hp]
  show some p.2 = some l
  rw [hp2]

/-- One `enviar_sms_ahora` call never overwrites an existing rate limiter:
a binding present in the map before the call is still bound, to the same
instance, afterwards. -/
theorem limiters_enviar_preserva (reg : Registry) (ls : LimiterMap) (oc : TransportOutcome)
    (ts : String) (qid : Nat) (numero mensaje nombre : String)
    (rd : Option (List (String × String))) (link : Option String)
    (n : String) (l : RateLimiter) (h : buscarLimiter ls n = some l) :
    buscarLimiter (enviar_sms_ahora reg ls oc ts qid numero mensaje nombre rd link).limiters n
      = some l := by
  have hls2 : ∀ x, buscarLimiter
      (if (buscarLimiter ls nombre).isNone then ls ++ [x] else ls) n = some l := by
    intro x
    split
    · exact buscarLimiter_append_of_some ls x n l h
    · exact h
  cases hb : obtener_operador reg nombre with
  | none => simp only [enviar_sms_ahora, hb]; exact h
  | some op =>
    simp only [enviar_sms_ahora, hb]
    split
    · exact h
    · cases oc <;> exact hls2 _

/-- Across any sequence of `enviar_sms_ahora` calls, an existing rate
limiter binding survives unchanged. -/
theorem limiters_secuencia_preserva (reg : Registry) (nombre : String) (l : RateLimiter) :
    ∀ (cs : List Llamada) (ls : LimiterMap), buscarLimiter ls nombre = some l →
      buscarLimiter (enviarSecuencia reg cs ls) nombre = some l := by
  intro cs
  induction cs with
  | nil => intro ls h; exact h
  | cons c tl ih =>
    intro ls h
    exact ih _ (limiters_enviar_preserva reg ls c.outcome c.ts c.queue_id c.numero c.mensaje
      c.operador_nombre c.row_data c.link_dinamico nombre l h)

/-- Claim C9: the rate limiter of a carrier is created lazily — the first
`enviar_sms_ahora` call that reaches the rate-limiting step (carrier found,
rendered message non-empty) while no limiter is bound installs one
parameterized by that carrier's `max_por_minuto` — and once a limiter is
bound for a carrier, every later call in any sequence still finds that very
binding (it is never recreated or replaced). -/
theorem claim_C9 :
    (∀ (reg : Registry) (ls : LimiterMap) (c : Llamada) (op : OperadorConfig),
        buscarLimiter ls c.operador_nombre = none →
        obtener_operador reg c.operador_nombre = some op →
        (preparar_mensaje c.mensaje c.numero c.row_data c.link_dinamico).length ≠ 0 →
        buscarLimiter (enviarLlamada reg ls c).limiters c.operador_nombre
          = some { max_por_minuto := op.max_por_minuto })
    ∧ (∀ (reg : Registry) (nombre : String) (l : RateLimiter) (ls : LimiterMap)
        (cs : List Llamada),
        buscarLimiter ls nombre = some l →
        buscarLimiter (enviarSecuencia reg cs ls) nombre = some l) := by
  constructor
  · intro reg ls c op hnone hop hlen
    have hfind : buscarLimiter
        (ls ++ [(c.operador_nombre, { max_por_minuto := op.max_por_minuto })])
        c.operador_nombre = some { max_por_minuto := op.max_por_minuto } := by
      unfold buscarLimiter at hnone ⊢
      rw [List.find?_append, Option.map_eq_none'.mp hnone, Option.none_or, List.find?_cons]
      simp only [beq_self_eq_true]
      rfl
    have hisnone : (buscarLimiter ls c.operador_nombre).isNone = true := by rw [hnone]; rfl
    have hcond : ((preparar_mensaje c.mensaje c.numero c.row_data c.link_dinamico).length == 0)
        = false := beq_eq_false_iff_ne.mpr hlen
    simp only [enviarLlamada, enviar_sms_ahora, hop, hcond, Bool.false_eq_true, if_false,
      hisnone, if_true]
    cases c.outcome <;> exact hfind
  · exact fun reg nombre l ls cs h => limiters_secuencia_preserva reg nombre l cs ls h

/-- Claim C9 (witness): on the fresh registry with an empty limiter map,
one successful call against `principal` installs the limiter with that
carrier's 100-per-minute cap, and a further call sequence leaves the
binding intact. -/
theorem claim_C9_witness :
    buscarLimiter (enviarLlamada OPERADORES_PREDEFINIDOS [] llamada0).limiters ("principal")
      = some { max_por_minuto := 100 }
    ∧ buscarLimiter
        (enviarSecuencia OPERADORES_PREDEFINIDOS [llamada0]
          [("principal", { max_por_minuto := 100 })]) ("principal")
      = some { max_por_minuto := 100 } :=
  ⟨claim_C9.1 OPERADORES_PREDEFINIDOS [] llamada0 principalConfig rfl (by decide) (by decide),
   claim_C9.2 OPERADORES_PREDEFINIDOS ("principal") { max_por_minuto := 100 }
     [("principal", { max_por_minuto := 100 })] [llamada0] rfl⟩

/-- Every transport request issued by a four-argument `enviar_sms_ahora`
call (no row data, no dynamic link) carries the raw template as content. -/
theorem postReqs_content (reg : Registry) (ls : LimiterMap) (oc : TransportOutcome)
    (ts : String) (qid : Nat) (numero mensaje nombre : String) :
    ∀ req ∈ (enviar_sms_ahora reg ls oc ts qid numero mensaje nombre none none).postReqs,
      req.content = mensaje := by
  intro req hreq
  cases hb : obtener_operador reg nombre with
  | none =>
    simp only [enviar_sms_ahora, hb] at hreq
    exact absurd hreq (List.not_mem_nil req)
  | some op =>
    simp only [enviar_sms_ahora, hb] at hreq
    split at hreq
    · exact absurd hreq (List.not_mem_nil req)
    · cases oc <;>
        · rw [List.mem_singleton] at hreq
          rw [hreq]
          exact preparar_mensaje_none_none mensaje numero

/-- Claim C10: both queue-processing paths call `enviar_sms_ahora` without
row data and without a dynamic link, so every transport request they issue
sends exactly the item's raw stored template as message content, every
placeholder left verbatim. -/
theorem claim_C10 :
    (∀ (reg : Registry) (ls : LimiterMap) (oc : TransportOutcome) (ts : String)
        (item : QueueItem) (e : EnvioEfectos) (req : PostRequest),
        procesarItem reg ls oc ts item = some e →
        req ∈ e.postReqs → req.content = item.mensaje)
    ∧ (∀ (reg : Registry) (ls : LimiterMap) (oc : TransportOutcome) (ts : String)
        (item : QueueItem) (e : EnvioEfectos) (req : PostRequest),
        reintentarItem reg ls oc ts item = some e →
        req ∈ e.postReqs → req.content = item.mensaje) := by
  constructor
  · intro reg ls oc ts item e req hpi hreq
    unfold procesarItem at hpi
    cases hsel : obtener_operador_siguiente reg item.intentos item.operador with
    | none => rw [hsel] at hpi; exact absurd hpi (by simp)
    | some op =>
      rw [hsel] at hpi
      rw [← Option.some_inj.mp hpi] at hreq
      exact postReqs_content reg ls oc ts item.id item.numero item.mensaje op.operador req hreq
  · intro reg ls oc ts item e req hpi hreq
    unfold reintentarItem at hpi
    cases hsel : obtener_operador_siguiente reg item.intentos none with
    | none => rw [hsel] at hpi; exact absurd hpi (by simp)
    | some op =>
      rw [hsel] at hpi
      rw [← Option.some_inj.mp hpi] at hreq
      exact postReqs_content reg ls oc ts item.id item.numero item.mensaje op.operador req hreq

/-- Claim C10 (witness): the concrete request `procesar_cola` issues for the
pending example item carries exactly the raw template `hola`. -/
theorem claim_C10_witness : reqEjemplo.content = itemPendiente.mensaje :=
  claim_C10.1 OPERADORES_PREDEFINIDOS [] (.ok ("ok") 5) ("20240101000000") itemPendiente
    efectosEjemplo reqEjemplo (by decide) (by decide)
